import Mathlib

/-!
A verification development for the action-dispatch engine of `next-tool`
(`src/index.ts`).  The dispatch core (`NextTool.rawHandler` together with
`NextTool.init`) is shallow-embedded below: asynchronous functions that may
reject become functions into `Except ThrownValue`, the mutable instance state
(the lazily initialized `store`) is threaded explicitly, and every invocation
of a hook, handler or store factory is recorded in an event trace so that
invocation counts and ordering can be stated.
-/

namespace NextToolModel

variable {V : Type}

/-- A JavaScript-style runtime value, used for the dispatcher's `store` slot
(`Store | undefined`).  `undef` models `undefined`; `obj` models an opaque,
always-truthy object reference. -/
inductive JsVal where
  | undef : JsVal
  | boolV : Bool → JsVal
  | numV : Int → JsVal
  | strV : String → JsVal
  | obj : Nat → JsVal
deriving DecidableEq

/-- JavaScript truthiness, as tested by `!this.store` in `init`. -/
def JsVal.truthy : JsVal → Bool
  | JsVal.undef => false
  | JsVal.boolV b => b
  | JsVal.numV n => n != 0
  | JsVal.strV s => s != ""
  | JsVal.obj _ => true

/-- A value thrown by a hook or handler.  Only its `message` property matters
to `rawHandler`'s catch block (`(error as any).message`); `none` models a
thrown value with no string `message` (a plain string, a number, a structured
object), whose `message` property is `undefined`. -/
structure ThrownValue where
  message : Option String
deriving DecidableEq

/-- The request body `{ action: string; input: any }`.  The `action` field may
be absent (`none`): bodies are destructured without validation, so a missing
field surfaces as `undefined` and is caught by the falsiness check. -/
structure RequestBody (V : Type) where
  action : Option String
  input : V
deriving DecidableEq

/-- `NextToolRequest`: an already-decoded request, with an optional body and
optional headers, passed through unmodified to hooks and handlers. -/
structure NextToolRequest (V : Type) where
  body : Option (RequestBody V)
  headers : Option (List (String × String))
deriving DecidableEq

/-- `NextToolActionFn` and the hook type: `(input, request) => Promise<Output>`
with rejection modelled by `Except.error`. -/
def NextToolActionFn (V : Type) : Type :=
  V → NextToolRequest V → Except ThrownValue V

/-- `NextToolActionConfig`: optional `before` and `after` hooks plus the
`disabled` flag (an absent flag is modelled as `false`, matching the
falsiness of `undefined`). -/
structure NextToolActionConfig (V : Type) where
  before : Option (NextToolActionFn V)
  after : Option (NextToolActionFn V)
  disabled : Bool

/-- `NextToolConfig`: the optional `actions` enablement record, modelled as an
association list keyed by action name. -/
structure NextToolConfig (V : Type) where
  actions : Option (List (String × NextToolActionConfig V))

/-- The immutable part of a `NextTool` instance: the configuration, the
handler record `actionMap`, and the optional store factory `getStoreFn`.
The factory takes its invocation index as argument, modelling a stateful
factory that may resolve to different values on successive calls. -/
structure NextTool (V : Type) where
  config : NextToolConfig V
  actionMap : List (String × NextToolActionFn V)
  getStoreFn : Option (Nat → JsVal)

/-- The mutable state of a `NextTool` instance: the `store` field (`undef`
while uninitialized) together with the number of factory invocations made so
far (the factory's invocation index). -/
structure DispState where
  store : JsVal
  factoryCalls : Nat
deriving DecidableEq

/-- Events recorded during a dispatch, each carrying the argument the call
received (for the factory, its invocation index). -/
inductive Event (V : Type) where
  | beforeE : V → Event V
  | handlerE : V → Event V
  | afterE : V → Event V
  | factoryE : Nat → Event V
deriving DecidableEq

/-- Whether an event is a `before`/handler/`after` invocation (as opposed to a
store-factory invocation). -/
def isHookEvent : Event V → Bool
  | Event.factoryE _ => false
  | _ => true

/-- The hook and handler events of a trace, factory events dropped. -/
def hookEvents (evs : List (Event V)) : List (Event V) :=
  evs.filter isHookEvent

/-- `init` (src/index.ts lines 97-101): `if (!this.store && this.getStoreFn)
this.store = await this.getStoreFn?.()`.  The factory runs iff the current
store is falsy and a factory exists; returns the updated state and the factory
events emitted. -/
def NextTool.init (t : NextTool V) (st : DispState) : DispState × List (Event V) :=
  match t.getStoreFn with
  | none => (st, [])
  | some f =>
      if st.store.truthy then (st, [])
      else (⟨f st.factoryCalls, st.factoryCalls + 1⟩, [Event.factoryE st.factoryCalls])

/-- The JSON payload handed to `send`: the code constructs either `{ data }`
or `{ error }`, where the error value is the thrown value's `message`
property and may therefore be `undefined` (`none`). -/
inductive Payload (V : Type) where
  | dataF : V → Payload V
  | errorF : Option String → Payload V
deriving DecidableEq

/-- Everything one call of `rawHandler` produces: the payload and status
passed to `send`, the instance state afterwards, and the trace of hook,
handler and factory invocations in execution order. -/
structure DispatchResult (V : Type) where
  payload : Payload V
  status : Nat
  state : DispState
  events : List (Event V)

/-- The body of `rawHandler`'s `try` block (src/index.ts lines 166-177): the
`before` hook when configured (otherwise the input passes through), then the
handler, then the `after` hook when configured (otherwise the result passes
through); a throw at any step aborts the remaining steps. -/
def tryBlock (cfg : NextToolActionConfig V) (actionFn : NextToolActionFn V)
    (input : V) (request : NextToolRequest V) :
    Except ThrownValue V × List (Event V) :=
  let beforeStep : Except ThrownValue V × List (Event V) :=
    match cfg.before with
    | some b => (b input request, [Event.beforeE input])
    | none => (Except.ok input, [])
  match beforeStep with
  | (Except.error e, evs) => (Except.error e, evs)
  | (Except.ok bi, evs) =>
    match actionFn bi request with
    | Except.error e => (Except.error e, evs ++ [Event.handlerE bi])
    | Except.ok res =>
      match cfg.after with
      | none => (Except.ok res, evs ++ [Event.handlerE bi])
      | some a =>
        match a res request with
        | Except.error e => (Except.error e, evs ++ [Event.handlerE bi, Event.afterE res])
        | Except.ok d => (Except.ok d, evs ++ [Event.handlerE bi, Event.afterE res])

/-- `rawHandler` (src/index.ts lines 133-182): the dispatch algorithm.  The
five validation checks run in order; then the store is initialized; then the
try block runs and its outcome is converted to a `{ data }` envelope with the
default status 200 or, on a throw, to `{ error: message }` with status 500. -/
def NextTool.rawHandler (t : NextTool V) (st : DispState)
    (request : NextToolRequest V) : DispatchResult V :=
  match request.body with
  | none => ⟨Payload.errorF (some "No body"), 400, st, []⟩
  | some body =>
    match body.action with
    | none => ⟨Payload.errorF (some "No action"), 400, st, []⟩
    | some action =>
      if action = "" then ⟨Payload.errorF (some "No action"), 400, st, []⟩
      else
        match t.actionMap.lookup action with
        | none =>
          ⟨Payload.errorF (some ("Unknown action \"" ++ action ++ "\"")), 400, st, []⟩
        | some actionFn =>
          match t.config.actions with
          | none =>
            ⟨Payload.errorF (some ("Action \"" ++ action ++ "\" not enabled")), 400, st, []⟩
          | some enabledActions =>
            match enabledActions.lookup action with
            | none =>
              ⟨Payload.errorF (some ("Action \"" ++ action ++ "\" not enabled")), 400, st, []⟩
            | some actionConfig =>
              if actionConfig.disabled then
                ⟨Payload.errorF (some ("Action \"" ++ action ++ "\" not enabled")), 400, st, []⟩
              else
                let initRes := t.init st
                match tryBlock actionConfig actionFn body.input request with
                | (Except.ok d, evs) =>
                    ⟨Payload.dataF d, 200, initRes.1, initRes.2 ++ evs⟩
                | (Except.error e, evs) =>
                    ⟨Payload.errorF e.message, 500, initRes.1, initRes.2 ++ evs⟩

/-- Run a sequence of dispatches against one instance, threading the mutable
state from call to call. -/
def runSeq (t : NextTool V) (st : DispState) : List (NextToolRequest V) → DispState
  | [] => st
  | r :: rs => runSeq t (t.rawHandler st r).state rs

/-- Program counter of one dispatch task executing `init`, with the suspension
at `await this.getStoreFn?.()` made explicit.  In `awaiting v`, the task has
already passed the falsiness guard and invoked the factory (whose promise will
resolve to `v`), but the assignment `this.store = ...` has not yet run; it runs
when the task is next scheduled. -/
inductive TaskPC where
  | start : TaskPC
  | awaiting : JsVal → TaskPC
  | done : TaskPC
deriving DecidableEq

/-- Shared state of a `NextTool` instance while two dispatches execute `init`
concurrently on the host's cooperative scheduler: the `store` field, the
factory invocation count, and each task's program counter. -/
structure ConcState where
  store : JsVal
  calls : Nat
  pc0 : TaskPC
  pc1 : TaskPC
deriving DecidableEq

/-- One cooperative step of task `which` (with a factory present) running
`init` (src/index.ts lines 97-101): from `start`, evaluate the guard
`!this.store`; when it passes, invoke the factory — counting the call — and
suspend at the `await`; from `awaiting v`, complete the `await` by assigning
`v` to the store. -/
def concStep (f : Nat → JsVal) (s : ConcState) (which : Bool) : ConcState :=
  let pc := if which then s.pc1 else s.pc0
  let setPC : ConcState → TaskPC → ConcState := fun s2 p =>
    if which then { s2 with pc1 := p } else { s2 with pc0 := p }
  match pc with
  | TaskPC.start =>
      if s.store.truthy then setPC s TaskPC.done
      else setPC { s with calls := s.calls + 1 } (TaskPC.awaiting (f s.calls))
  | TaskPC.awaiting v => setPC { s with store := v } TaskPC.done
  | TaskPC.done => s

/-- Run a schedule (a list of task choices) of cooperative steps. -/
def concRun (f : Nat → JsVal) (s : ConcState) : List Bool → ConcState
  | [] => s
  | w :: ws => concRun f (concStep f s w) ws

/-- The uninitialized instance state: `store` is `undefined` and the factory
has never been invoked. -/
def st0 : DispState := ⟨JsVal.undef, 0⟩

/-- A concrete instance over `Nat` inputs exercising every dispatch path:
`full` has both hooks, `plain` has neither, `off` is disabled, `boom` has a
throwing handler, `ghost` is configured but has no handler, `orphan` and the
empty name have handlers but no configuration entry. -/
def wActions : List (String × NextToolActionConfig Nat) :=
  [("full", { before := some (fun i _ => Except.ok (i + 1)),
              after := some (fun o _ => Except.ok (o * 2)),
              disabled := false }),
   ("plain", { before := none, after := none, disabled := false }),
   ("off", { before := none, after := none, disabled := true }),
   ("boom", { before := some (fun i _ => Except.ok (i + 1)),
              after := some (fun o _ => Except.ok o),
              disabled := false }),
   ("ghost", { before := none, after := none, disabled := false })]

/-- Handler record for `wTool`. -/
def wMap : List (String × NextToolActionFn Nat) :=
  [("full", fun i _ => Except.ok (i + 10)),
   ("plain", fun i _ => Except.ok i),
   ("off", fun i _ => Except.ok i),
   ("boom", fun _ _ => Except.error ⟨some "boom"⟩),
   ("", fun i _ => Except.ok i),
   ("orphan", fun i _ => Except.ok i)]

/-- The concrete instance assembled from `wActions` and `wMap`. -/
def wTool : NextTool Nat :=
  { config := { actions := some wActions },
    actionMap := wMap,
    getStoreFn := some (fun _ => JsVal.numV 7) }

/-- A request for `wTool`'s `full` action with input 5. -/
def reqFull : NextToolRequest Nat := ⟨some ⟨some "full", 5⟩, none⟩

/-- A request for `wTool`'s `ghost` action (configured, no handler). -/
def reqGhost : NextToolRequest Nat := ⟨some ⟨some "ghost", 0⟩, none⟩

/-- A request for `wTool`'s disabled `off` action. -/
def reqOff : NextToolRequest Nat := ⟨some ⟨some "off", 1⟩, none⟩

/-- A request for `wTool`'s `boom` action whose handler throws. -/
def reqBoom : NextToolRequest Nat := ⟨some ⟨some "boom", 5⟩, none⟩

/-- A request whose `action` field is the empty string. -/
def reqEmptyAction : NextToolRequest Nat := ⟨some ⟨some "", 3⟩, none⟩

/-- A request with no body at all. -/
def reqNoBody : NextToolRequest Nat := ⟨none, none⟩

/-- An instance whose store factory resolves to the falsy value `0` on its
first invocation and to `42` afterwards, with one enabled echo action. -/
def falsyStoreTool : NextTool Nat :=
  { config := { actions := some [("echo", { before := none, after := none,
                                            disabled := false })] },
    actionMap := [("echo", fun i _ => Except.ok i)],
    getStoreFn := some (fun i => if i = 0 then JsVal.numV 0 else JsVal.numV 42) }

/-- A request for `falsyStoreTool`'s `echo` action. -/
def reqEcho : NextToolRequest Nat := ⟨some ⟨some "echo", 5⟩, none⟩

/-- An instance whose handler throws a value with no string `message`
property (modelling `throw "boom"` or a thrown plain object). -/
def throwBareTool : NextTool Nat :=
  { config := { actions := some [("bare", { before := none, after := none,
                                            disabled := false })] },
    actionMap := [("bare", fun _ _ => Except.error ⟨none⟩)],
    getStoreFn := none }

/-- A request for `throwBareTool`'s `bare` action. -/
def reqBare : NextToolRequest Nat := ⟨some ⟨some "bare", 0⟩, none⟩

/-- `hookEvents` distributes over trace concatenation. -/
theorem hookEvents_append (xs ys : List (Event V)) :
    hookEvents (xs ++ ys) = hookEvents xs ++ hookEvents ys :=
  List.filter_append xs ys

/-- `init` emits only factory events, so its trace has no hook events. -/
theorem hookEvents_init (t : NextTool V) (st : DispState) :
    hookEvents (t.init st).2 = [] := by
  unfold NextTool.init
  cases hf : t.getStoreFn with
  | none => simp [hookEvents]
  | some f =>
    by_cases hs : st.store.truthy = true <;>
      simp [hs, hookEvents, isHookEvent, List.filter]

/-- `hookEvents` of the empty trace. -/
theorem hookEvents_nil : hookEvents ([] : List (Event V)) = [] := rfl

/-- `hookEvents` keeps `before` events. -/
theorem hookEvents_beforeE (v : V) (evs : List (Event V)) :
    hookEvents (Event.beforeE v :: evs) = Event.beforeE v :: hookEvents evs := rfl

/-- `hookEvents` keeps handler events. -/
theorem hookEvents_handlerE (v : V) (evs : List (Event V)) :
    hookEvents (Event.handlerE v :: evs) = Event.handlerE v :: hookEvents evs := rfl

/-- `hookEvents` keeps `after` events. -/
theorem hookEvents_afterE (v : V) (evs : List (Event V)) :
    hookEvents (Event.afterE v :: evs) = Event.afterE v :: hookEvents evs := rfl

/-- C2: the five validation checks of `rawHandler` run in the fixed order
no-body, no-action (absent or empty), unknown action, absent action
configuration, entry missing or disabled; the first condition met fully
determines the response — `{ error }` with status 400 — and leaves the state
untouched with an empty invocation trace (no handler, hook, or store factory
runs).  In particular a request with no body yields `{ error: "No body" }`. -/
theorem c2_validation_order (t : NextTool V) (st : DispState)
    (request : NextToolRequest V) :
    (request.body = none →
      t.rawHandler st request = ⟨Payload.errorF (some "No body"), 400, st, []⟩) ∧
    (∀ body, request.body = some body → body.action = none →
      t.rawHandler st request = ⟨Payload.errorF (some "No action"), 400, st, []⟩) ∧
    (∀ body, request.body = some body → body.action = some "" →
      t.rawHandler st request = ⟨Payload.errorF (some "No action"), 400, st, []⟩) ∧
    (∀ body a, request.body = some body → body.action = some a → a ≠ "" →
      t.actionMap.lookup a = none →
      t.rawHandler st request =
        ⟨Payload.errorF (some ("Unknown action \"" ++ a ++ "\"")), 400, st, []⟩) ∧
    (∀ body a fn, request.body = some body → body.action = some a → a ≠ "" →
      t.actionMap.lookup a = some fn → t.config.actions = none →
      t.rawHandler st request =
        ⟨Payload.errorF (some ("Action \"" ++ a ++ "\" not enabled")), 400, st, []⟩) ∧
    (∀ body a fn acts, request.body = some body → body.action = some a → a ≠ "" →
      t.actionMap.lookup a = some fn → t.config.actions = some acts →
      (acts.lookup a = none ∨ ∃ cfg, acts.lookup a = some cfg ∧ cfg.disabled = true) →
      t.rawHandler st request =
        ⟨Payload.errorF (some ("Action \"" ++ a ++ "\" not enabled")), 400, st, []⟩) := by
  refine ⟨?_, ?_, ?_, ?_, ?_, ?_⟩
  · intro hb
    simp [NextTool.rawHandler, hb]
  · intro body hb ha
    simp [NextTool.rawHandler, hb, ha]
  · intro body hb ha
    simp [NextTool.rawHandler, hb, ha]
  · intro body a hb ha hne hmap
    simp [NextTool.rawHandler, hb, ha, hne, hmap]
  · intro body a fn hb ha hne hmap hacts
    simp [NextTool.rawHandler, hb, ha, hne, hmap, hacts]
  · intro body a fn acts hb ha hne hmap hacts hdis
    rcases hdis with hnone | ⟨cfg, hcfg, hdis⟩
    · simp [NextTool.rawHandler, hb, ha, hne, hmap, hacts, hnone]
    · simp [NextTool.rawHandler, hb, ha, hne, hmap, hacts, hcfg, hdis]

/-- C2 witness: a request with no body gets `{ error: "No body" }`, status
400, with the state untouched and nothing invoked. -/
theorem c2_validation_order_witness :
    wTool.rawHandler st0 reqNoBody =
      ⟨Payload.errorF (some "No body"), 400, st0, []⟩ :=
  (c2_validation_order wTool st0 reqNoBody).1 rfl

/-- C3: a request naming an action with no handler entry is answered with
`Unknown action "<name>"`, status 400, even when an enablement entry for the
name exists in the configuration — the handler-existence check strictly
precedes the enablement check. -/
theorem c3_unknown_action_precedence (t : NextTool V) (st : DispState)
    (request : NextToolRequest V) (body : RequestBody V) (a : String)
    (acts : List (String × NextToolActionConfig V)) (cfg : NextToolActionConfig V)
    (hb : request.body = some body) (ha : body.action = some a) (hne : a ≠ "")
    (hmap : t.actionMap.lookup a = none)
    (hacts : t.config.actions = some acts) (hcfg : acts.lookup a = some cfg) :
    t.rawHandler st request =
      ⟨Payload.errorF (some ("Unknown action \"" ++ a ++ "\"")), 400, st, []⟩ := by
  simp [NextTool.rawHandler, hb, ha, hne, hmap]

/-- C3 witness: `ghost` is configured (enabled, no hooks) but has no handler,
and dispatching it reports `Unknown action "ghost"`. -/
theorem c3_unknown_action_precedence_witness :
    wTool.rawHandler st0 reqGhost =
      ⟨Payload.errorF (some "Unknown action \"ghost\""), 400, st0, []⟩ :=
  c3_unknown_action_precedence wTool st0 reqGhost ⟨some "ghost", 0⟩ "ghost"
    wActions { before := none, after := none, disabled := false }
    rfl rfl (by decide) rfl rfl rfl

/-- C4: a request naming an action with a registered handler whose
configuration entry is absent, or present but disabled, or where the
configuration's `actions` record is entirely absent, is answered with
`Action "<name>" not enabled`, status 400, the state untouched and the
handler never invoked (empty trace). -/
theorem c4_not_enabled (t : NextTool V) (st : DispState)
    (request : NextToolRequest V) (body : RequestBody V) (a : String)
    (fn : NextToolActionFn V)
    (hb : request.body = some body) (ha : body.action = some a) (hne : a ≠ "")
    (hmap : t.actionMap.lookup a = some fn) :
    (t.config.actions = none →
      t.rawHandler st request =
        ⟨Payload.errorF (some ("Action \"" ++ a ++ "\" not enabled")), 400, st, []⟩) ∧
    (∀ acts, t.config.actions = some acts → acts.lookup a = none →
      t.rawHandler st request =
        ⟨Payload.errorF (some ("Action \"" ++ a ++ "\" not enabled")), 400, st, []⟩) ∧
    (∀ acts cfg, t.config.actions = some acts → acts.lookup a = some cfg →
      cfg.disabled = true →
      t.rawHandler st request =
        ⟨Payload.errorF (some ("Action \"" ++ a ++ "\" not enabled")), 400, st, []⟩) := by
  refine ⟨?_, ?_, ?_⟩
  · intro hacts
    simp [NextTool.rawHandler, hb, ha, hne, hmap, hacts]
  · intro acts hacts hnone
    simp [NextTool.rawHandler, hb, ha, hne, hmap, hacts, hnone]
  · intro acts cfg hacts hcfg hdis
    simp [NextTool.rawHandler, hb, ha, hne, hmap, hacts, hcfg, hdis]

/-- C4 witness: `off` has a handler but is configured with `disabled`, and
dispatching it reports `Action "off" not enabled` without invoking anything. -/
theorem c4_not_enabled_witness :
    wTool.rawHandler st0 reqOff =
      ⟨Payload.errorF (some "Action \"off\" not enabled"), 400, st0, []⟩ :=
  (c4_not_enabled wTool st0 reqOff ⟨some "off", 1⟩ "off" _
    rfl rfl (by decide) rfl).2.2 wActions
    { before := none, after := none, disabled := true } rfl rfl rfl

/-- C9: a request whose body is present and whose `action` field is the empty
string is answered with `{ error: "No action" }`, status 400, even when a
handler is registered under the empty-string name — the check tests the
field's truthiness, not its presence. -/
theorem c9_empty_action (t : NextTool V) (st : DispState)
    (request : NextToolRequest V) (body : RequestBody V) (fn : NextToolActionFn V)
    (hb : request.body = some body) (ha : body.action = some "")
    (hreg : t.actionMap.lookup "" = some fn) :
    t.rawHandler st request = ⟨Payload.errorF (some "No action"), 400, st, []⟩ := by
  simp [NextTool.rawHandler, hb, ha]

/-- C9 witness: `wTool` registers a handler under the empty name, yet a
request with `action = ""` reports `No action`. -/
theorem c9_empty_action_witness :
    wTool.rawHandler st0 reqEmptyAction =
      ⟨Payload.errorF (some "No action"), 400, st0, []⟩ :=
  c9_empty_action wTool st0 reqEmptyAction ⟨some "", 3⟩ (fun i _ => Except.ok i)
    rfl rfl rfl

/-- C1: for an enabled action with both hooks that all succeed, the success
payload is `after (handler (before input))` and the trace shows `before`, the
handler and `after` each invoked exactly once, in that order, the handler
receiving `before`'s output and `after` receiving the handler's output; with
`before` absent the handler receives the original input unchanged, and with
`after` absent the payload is the handler's result unchanged. -/
theorem c1_hook_sequencing (t : NextTool V) (st : DispState)
    (request : NextToolRequest V) (body : RequestBody V) (a : String)
    (h : NextToolActionFn V) (acts : List (String × NextToolActionConfig V))
    (cfg : NextToolActionConfig V)
    (hb : request.body = some body) (ha : body.action = some a) (hne : a ≠ "")
    (hmap : t.actionMap.lookup a = some h)
    (hacts : t.config.actions = some acts) (hcfg : acts.lookup a = some cfg)
    (hdis : cfg.disabled = false) :
    (∀ b af x y z, cfg.before = some b → cfg.after = some af →
      b body.input request = Except.ok x → h x request = Except.ok y →
      af y request = Except.ok z →
      (t.rawHandler st request).payload = Payload.dataF z ∧
      (t.rawHandler st request).status = 200 ∧
      hookEvents (t.rawHandler st request).events =
        [Event.beforeE body.input, Event.handlerE x, Event.afterE y]) ∧
    (∀ af y z, cfg.before = none → cfg.after = some af →
      h body.input request = Except.ok y → af y request = Except.ok z →
      (t.rawHandler st request).payload = Payload.dataF z ∧
      (t.rawHandler st request).status = 200 ∧
      hookEvents (t.rawHandler st request).events =
        [Event.handlerE body.input, Event.afterE y]) ∧
    (∀ b x y, cfg.before = some b → cfg.after = none →
      b body.input request = Except.ok x → h x request = Except.ok y →
      (t.rawHandler st request).payload = Payload.dataF y ∧
      (t.rawHandler st request).status = 200 ∧
      hookEvents (t.rawHandler st request).events =
        [Event.beforeE body.input, Event.handlerE x]) := by
  refine ⟨?_, ?_, ?_⟩
  · intro b af x y z hbe haf hx hy hz
    simp [NextTool.rawHandler, hb, ha, hne, hmap, hacts, hcfg, hdis, tryBlock,
      hbe, haf, hx, hy, hz, hookEvents_append, hookEvents_init, hookEvents_nil,
      hookEvents_beforeE, hookEvents_handlerE, hookEvents_afterE]
  · intro af y z hbe haf hy hz
    simp [NextTool.rawHandler, hb, ha, hne, hmap, hacts, hcfg, hdis, tryBlock,
      hbe, haf, hy, hz, hookEvents_append, hookEvents_init, hookEvents_nil,
      hookEvents_beforeE, hookEvents_handlerE, hookEvents_afterE]
  · intro b x y hbe haf hx hy
    simp [NextTool.rawHandler, hb, ha, hne, hmap, hacts, hcfg, hdis, tryBlock,
      hbe, haf, hx, hy, hookEvents_append, hookEvents_init, hookEvents_nil,
      hookEvents_beforeE, hookEvents_handlerE, hookEvents_afterE]

/-- C1 witness: `full` with input 5 runs before (5 becomes 6), the handler
(6 becomes 16) and after (16 becomes 32), producing data 32 with the three
invocations in order. -/
theorem c1_hook_sequencing_witness :
    (wTool.rawHandler st0 reqFull).payload = Payload.dataF 32 ∧
    (wTool.rawHandler st0 reqFull).status = 200 ∧
    hookEvents (wTool.rawHandler st0 reqFull).events =
      [Event.beforeE 5, Event.handlerE 6, Event.afterE 16] :=
  (c1_hook_sequencing wTool st0 reqFull ⟨some "full", 5⟩ "full"
      (fun i _ => Except.ok (i + 10)) wActions
      { before := some (fun i _ => Except.ok (i + 1)),
        after := some (fun o _ => Except.ok (o * 2)), disabled := false }
      rfl rfl (by decide) rfl rfl rfl rfl).1
    (fun i _ => Except.ok (i + 1)) (fun o _ => Except.ok (o * 2)) 6 16 32
    rfl rfl rfl rfl rfl

/-- C5: a throw by `before`, the handler, or `after` is caught once at the
dispatch boundary and becomes `{ error: <thrown message> }` with status 500;
a throw aborts the remaining steps, so when the handler throws the `after`
hook never runs and no partial result is returned, and when `before` throws
the handler never runs. -/
theorem c5_throw_boundary (t : NextTool V) (st : DispState)
    (request : NextToolRequest V) (body : RequestBody V) (a : String)
    (h : NextToolActionFn V) (acts : List (String × NextToolActionConfig V))
    (cfg : NextToolActionConfig V)
    (hb : request.body = some body) (ha : body.action = some a) (hne : a ≠ "")
    (hmap : t.actionMap.lookup a = some h)
    (hacts : t.config.actions = some acts) (hcfg : acts.lookup a = some cfg)
    (hdis : cfg.disabled = false) :
    (∀ b e, cfg.before = some b → b body.input request = Except.error e →
      (t.rawHandler st request).payload = Payload.errorF e.message ∧
      (t.rawHandler st request).status = 500 ∧
      hookEvents (t.rawHandler st request).events = [Event.beforeE body.input]) ∧
    (∀ b x e, cfg.before = some b → b body.input request = Except.ok x →
      h x request = Except.error e →
      (t.rawHandler st request).payload = Payload.errorF e.message ∧
      (t.rawHandler st request).status = 500 ∧
      hookEvents (t.rawHandler st request).events =
        [Event.beforeE body.input, Event.handlerE x]) ∧
    (∀ e, cfg.before = none → h body.input request = Except.error e →
      (t.rawHandler st request).payload = Payload.errorF e.message ∧
      (t.rawHandler st request).status = 500 ∧
      hookEvents (t.rawHandler st request).events = [Event.handlerE body.input]) ∧
    (∀ b af x y e, cfg.before = some b → cfg.after = some af →
      b body.input request = Except.ok x → h x request = Except.ok y →
      af y request = Except.error e →
      (t.rawHandler st request).payload = Payload.errorF e.message ∧
      (t.rawHandler st request).status = 500 ∧
      hookEvents (t.rawHandler st request).events =
        [Event.beforeE body.input, Event.handlerE x, Event.afterE y]) := by
  refine ⟨?_, ?_, ?_, ?_⟩
  · intro b e hbe he
    simp [NextTool.rawHandler, hb, ha, hne, hmap, hacts, hcfg, hdis, tryBlock,
      hbe, he, hookEvents_append, hookEvents_init, hookEvents_nil,
      hookEvents_beforeE, hookEvents_handlerE, hookEvents_afterE]
  · intro b x e hbe hx he
    simp [NextTool.rawHandler, hb, ha, hne, hmap, hacts, hcfg, hdis, tryBlock,
      hbe, hx, he, hookEvents_append, hookEvents_init, hookEvents_nil,
      hookEvents_beforeE, hookEvents_handlerE, hookEvents_afterE]
  · intro e hbe he
    simp [NextTool.rawHandler, hb, ha, hne, hmap, hacts, hcfg, hdis, tryBlock,
      hbe, he, hookEvents_append, hookEvents_init, hookEvents_nil,
      hookEvents_beforeE, hookEvents_handlerE, hookEvents_afterE]
  · intro b af x y e hbe haf hx hy he
    simp [NextTool.rawHandler, hb, ha, hne, hmap, hacts, hcfg, hdis, tryBlock,
      hbe, haf, hx, hy, he, hookEvents_append, hookEvents_init, hookEvents_nil,
      hookEvents_beforeE, hookEvents_handlerE, hookEvents_afterE]

/-- C5 witness: `boom` runs before (5 becomes 6), then its handler throws
`Error("boom")`: the response is `{ error: "boom" }` with status 500 and the
`after` hook — though configured — never ran. -/
theorem c5_throw_boundary_witness :
    (wTool.rawHandler st0 reqBoom).payload = Payload.errorF (some "boom") ∧
    (wTool.rawHandler st0 reqBoom).status = 500 ∧
    hookEvents (wTool.rawHandler st0 reqBoom).events =
      [Event.beforeE 5, Event.handlerE 6] :=
  (c5_throw_boundary wTool st0 reqBoom ⟨some "boom", 5⟩ "boom"
      (fun _ _ => Except.error ⟨some "boom"⟩) wActions
      { before := some (fun i _ => Except.ok (i + 1)),
        after := some (fun o _ => Except.ok o), disabled := false }
      rfl rfl (by decide) rfl rfl rfl rfl).2.1
    (fun i _ => Except.ok (i + 1)) 6 ⟨some "boom"⟩ rfl rfl rfl

/-- Every outcome of `rawHandler` is a validation error (status 400, state
untouched, empty trace), a success envelope (status 200), or a caught-throw
envelope (status 500), the latter two after store initialization. -/
theorem rawHandler_shape (t : NextTool V) (st : DispState)
    (request : NextToolRequest V) :
    (∃ s, t.rawHandler st request = ⟨Payload.errorF (some s), 400, st, []⟩) ∨
    (∃ d evs, t.rawHandler st request
        = ⟨Payload.dataF d, 200, (t.init st).1, (t.init st).2 ++ evs⟩) ∨
    (∃ m evs, t.rawHandler st request
        = ⟨Payload.errorF m, 500, (t.init st).1, (t.init st).2 ++ evs⟩) := by
  cases hb : request.body with
  | none => exact Or.inl ⟨"No body", by simp [NextTool.rawHandler, hb]⟩
  | some body =>
    cases ha : body.action with
    | none => exact Or.inl ⟨"No action", by simp [NextTool.rawHandler, hb, ha]⟩
    | some a =>
      by_cases hae : a = ""
      · exact Or.inl ⟨"No action", by simp [NextTool.rawHandler, hb, ha, hae]⟩
      · cases hmap : t.actionMap.lookup a with
        | none =>
          exact Or.inl ⟨"Unknown action \"" ++ a ++ "\"",
            by simp [NextTool.rawHandler, hb, ha, hae, hmap]⟩
        | some fn =>
          cases hacts : t.config.actions with
          | none =>
            exact Or.inl ⟨"Action \"" ++ a ++ "\" not enabled",
              by simp [NextTool.rawHandler, hb, ha, hae, hmap, hacts]⟩
          | some acts =>
            cases hcfg : acts.lookup a with
            | none =>
              exact Or.inl ⟨"Action \"" ++ a ++ "\" not enabled",
                by simp [NextTool.rawHandler, hb, ha, hae, hmap, hacts, hcfg]⟩
            | some cfg =>
              by_cases hdis : cfg.disabled = true
              · exact Or.inl ⟨"Action \"" ++ a ++ "\" not enabled",
                  by simp [NextTool.rawHandler, hb, ha, hae, hmap, hacts, hcfg, hdis]⟩
              · rcases htry : tryBlock cfg fn body.input request with ⟨res, evs⟩
                cases res with
                | ok d =>
                  exact Or.inr (Or.inl ⟨d, evs, by
                    simp [NextTool.rawHandler, hb, ha, hae, hmap, hacts, hcfg,
                      hdis, htry]⟩)
                | error e =>
                  exact Or.inr (Or.inr ⟨e.message, evs, by
                    simp [NextTool.rawHandler, hb, ha, hae, hmap, hacts, hcfg,
                      hdis, htry]⟩)

/-- When the store is truthy, `init` leaves the state unchanged. -/
theorem init_truthy (t : NextTool V) (st : DispState)
    (hs : st.store.truthy = true) : t.init st = (st, []) := by
  unfold NextTool.init
  cases t.getStoreFn <;> simp [hs]

/-- A dispatch leaves the state untouched or replaces it by the initialized
state. -/
theorem rawHandler_state_cases (t : NextTool V) (st : DispState)
    (request : NextToolRequest V) :
    (t.rawHandler st request).state = st ∨
    (t.rawHandler st request).state = (t.init st).1 := by
  rcases rawHandler_shape t st request with ⟨s, h⟩ | ⟨d, evs, h⟩ | ⟨m, evs, h⟩ <;>
    rw [h]
  · exact Or.inl rfl
  · exact Or.inr rfl
  · exact Or.inr rfl

/-- C8 (amended): every response envelope is exactly one of `{ data }` with
status 200, `{ error: <string> }` with status 400, or `{ error: <message> }`
with status 500 — where the 500-case message is the thrown value's `message`
property and so may be `undefined` rather than a string when the thrown value
is not Error-shaped. -/
theorem c8_envelope_exclusive (t : NextTool V) (st : DispState)
    (request : NextToolRequest V) :
    (∃ d, (t.rawHandler st request).payload = Payload.dataF d ∧
      (t.rawHandler st request).status = 200) ∨
    (∃ s, (t.rawHandler st request).payload = Payload.errorF (some s) ∧
      (t.rawHandler st request).status = 400) ∨
    (∃ m, (t.rawHandler st request).payload = Payload.errorF m ∧
      (t.rawHandler st request).status = 500) := by
  rcases rawHandler_shape t st request with ⟨s, h⟩ | ⟨d, evs, h⟩ | ⟨m, evs, h⟩
  · exact Or.inr (Or.inl ⟨s, by rw [h], by rw [h]⟩)
  · exact Or.inl ⟨d, by rw [h], by rw [h]⟩
  · exact Or.inr (Or.inr ⟨m, by rw [h], by rw [h]⟩)

/-- C8 counterexample: when the handler throws a value with no string
`message` (such as a thrown plain string), the response payload is
`{ error: undefined }` — it is neither a `{ data }` envelope nor an `error`
field holding a string, refuting the claim that the error field always holds
a string even for non-Error-shaped thrown values. -/
theorem c8_nonstring_error_counterexample :
    (throwBareTool.rawHandler st0 reqBare).payload = Payload.errorF none ∧
    (throwBareTool.rawHandler st0 reqBare).status = 500 ∧
    ¬ (∃ d, (throwBareTool.rawHandler st0 reqBare).payload = Payload.dataF d) ∧
    ¬ (∃ s, (throwBareTool.rawHandler st0 reqBare).payload
          = Payload.errorF (some s)) := by
  have hp : (throwBareTool.rawHandler st0 reqBare).payload
      = Payload.errorF (V := Nat) none := rfl
  refine ⟨hp, rfl, ?_, ?_⟩ <;> simp [hp]

/-- C10: a dispatch that ends in a client-input error (status 400) returns
before the store-initialization step: the state — in particular the store
field — is unchanged and nothing (handler, hook, or store factory) was
invoked. -/
theorem c10_client_error_frame (t : NextTool V) (st : DispState)
    (request : NextToolRequest V)
    (h400 : (t.rawHandler st request).status = 400) :
    (t.rawHandler st request).state = st ∧
    (t.rawHandler st request).events = [] := by
  rcases rawHandler_shape t st request with ⟨s, h⟩ | ⟨d, evs, h⟩ | ⟨m, evs, h⟩
  · rw [h]
    exact ⟨rfl, rfl⟩
  · rw [h] at h400
    simp at h400
  · rw [h] at h400
    simp at h400

/-- C10 witness: the rejected `ghost` dispatch (status 400) leaves the fresh
state untouched and its trace empty. -/
theorem c10_client_error_frame_witness :
    (wTool.rawHandler st0 reqGhost).state = st0 ∧
    (wTool.rawHandler st0 reqGhost).events = [] :=
  c10_client_error_frame wTool st0 reqGhost rfl

/-- C6 counterexample: the init guard tests JavaScript truthiness of the
store, so a factory resolving to the falsy value `0` is re-invoked by the next
dispatch: two sequential dispatches invoke `falsyStoreTool`'s factory twice
(refuting "at most once"), and the store, first assigned `0`, later changes to
`42` (refuting "once assigned, never changes"). -/
theorem c6_store_counterexample :
    ¬ (runSeq falsyStoreTool st0 [reqEcho, reqEcho]).factoryCalls ≤ 1 ∧
    (falsyStoreTool.rawHandler st0 reqEcho).state.store = JsVal.numV 0 ∧
    (runSeq falsyStoreTool st0 [reqEcho, reqEcho]).store = JsVal.numV 42 := by
  refine ⟨by decide, rfl, rfl⟩

/-- Under a factory whose every value is truthy, any dispatch sequence from
the uninitialized state invokes the factory at most once in total. -/
theorem runSeq_calls_le_one (t : NextTool V) (f : Nat → JsVal)
    (hf : t.getStoreFn = some f) (htruthy : ∀ i, (f i).truthy = true) :
    ∀ (reqs : List (NextToolRequest V)) (st : DispState),
      st.factoryCalls ≤ 1 → (st.store.truthy = false → st.factoryCalls = 0) →
      (runSeq t st reqs).factoryCalls ≤ 1 := by
  intro reqs
  induction reqs with
  | nil => intro st h1 _; exact h1
  | cons r rs ih =>
    intro st h1 h2
    simp only [runSeq]
    rcases rawHandler_state_cases t st r with h | h
    · rw [h]
      exact ih st h1 h2
    · by_cases hs : st.store.truthy = true
      · rw [h, init_truthy t st hs]
        exact ih st h1 h2
      · have hs2 : st.store.truthy = false := by
          cases hval : st.store.truthy
          · rfl
          · exact absurd hval hs
        have h0 := h2 hs2
        have hinit : (t.init st).1
            = ⟨f st.factoryCalls, st.factoryCalls + 1⟩ := by
          unfold NextTool.init
          rw [hf]
          simp [hs2]
        rw [h, hinit, h0]
        apply ih
        · simp
        · intro hfalse
          rw [show (⟨f 0, 0 + 1⟩ : DispState).store = f 0 from rfl,
            htruthy 0] at hfalse
          exact Bool.noConfusion hfalse

/-- C6 (amended): the store is uninitialized at construction and materialized
by the first dispatch that reaches the initialization step (the factory runs
at the current invocation index); once the store holds a truthy value no
later dispatch changes the state; and provided the factory resolves to truthy
values, the factory is invoked at most once over any sequence of dispatches.
(Without the truthiness proviso the guard `!this.store` re-invokes the
factory, as `c6_store_counterexample` shows.) -/
theorem c6_store_lifecycle (t : NextTool V) (f : Nat → JsVal)
    (hf : t.getStoreFn = some f) (htruthy : ∀ i, (f i).truthy = true) :
    (∀ st : DispState, st.store.truthy = false →
      t.init st = (⟨f st.factoryCalls, st.factoryCalls + 1⟩,
        [Event.factoryE st.factoryCalls])) ∧
    (∀ (st : DispState) (request : NextToolRequest V),
      st.store.truthy = true → (t.rawHandler st request).state = st) ∧
    (∀ reqs : List (NextToolRequest V),
      (runSeq t st0 reqs).factoryCalls ≤ 1) := by
  refine ⟨?_, ?_, ?_⟩
  · intro st hs
    unfold NextTool.init
    rw [hf]
    simp [hs]
  · intro st request hs
    rcases rawHandler_state_cases t st request with h | h
    · exact h
    · rw [h, init_truthy t st hs]
  · intro reqs
    exact runSeq_calls_le_one t f hf htruthy reqs st0 (by simp [st0])
      (fun _ => rfl)

/-- C6 witness: `wTool`'s factory always resolves to the truthy value 7, and
across three dispatches it is invoked at most once. -/
theorem c6_store_lifecycle_witness :
    (runSeq wTool st0 [reqFull, reqFull, reqFull]).factoryCalls ≤ 1 :=
  (c6_store_lifecycle wTool (fun _ => JsVal.numV 7) rfl (fun _ => rfl)).2.2
    [reqFull, reqFull, reqFull]

/-- C7: `init` re-checks the store without coordination across its `await`,
so two dispatches that both reach the guard before either factory promise
resolves each invoke the factory: under the schedule task 0 guard, task 1
guard, task 0 assignment, task 1 assignment, the factory is invoked twice —
not at most once — and the two tasks assign different store values (1, then
2), the second overwriting the first. -/
theorem c7_race_double_invocation :
    concRun (fun i => JsVal.numV (Int.ofNat i + 1))
        ⟨JsVal.undef, 0, TaskPC.start, TaskPC.start⟩ [false, true, false, true]
      = ⟨JsVal.numV 2, 2, TaskPC.done, TaskPC.done⟩ ∧
    ¬ (concRun (fun i => JsVal.numV (Int.ofNat i + 1))
        ⟨JsVal.undef, 0, TaskPC.start, TaskPC.start⟩
        [false, true, false, true]).calls ≤ 1 := by
  refine ⟨rfl, by decide⟩

end NextToolModel
